import Mathlib

/-!
Shallow embedding of the funds-collection and transaction-monitoring services
(`node_manager/services/collector.py` and `node_manager/services/monitor.py`).

The node collaborator is modelled as an oracle of pure functions returning
`Except String _`: a `.error e` models a Python exception with message `e`.
Monetary amounts are embedded as exact rationals.  Every node interaction of a
collection job is additionally recorded in a trace of `NodeCall` events, so
that statements of the form "the transaction is never broadcast" are about an
explicit call trace rather than about the absence of an effect.
-/

namespace NodeManager

/-- One unspent output as returned by `node.get_address_utxos`:
`txid`, `vout`, `amount`, and `confirmations` (the Python code reads
`u.get('confirmations', 0)`, so a missing key is the same as `0`). -/
structure Utxo where
  txid : String
  vout : Nat
  amount : ℚ
  confirmations : Nat
deriving DecidableEq

/-- Result dictionary of `node.sign_raw_transaction`: the code reads
`signed_tx.get('complete', False)` and `signed_tx['hex']`. -/
structure SignedTx where
  complete : Bool
  hex : String
deriving DecidableEq

/-- The node capability interface consumed by the collector.  Each method may
fail; `.error e` stands for a raised exception with description `e`. -/
structure Node where
  get_address_utxos : String → Except String (List Utxo)
  create_raw_transaction : List (String × Nat) → String → ℚ → Except String String
  sign_raw_transaction : String → List String → Except String SignedTx
  send_transaction : String → Except String String

/-- Collector-wide policy: `FundsCollector.__init__` stores the master
address, `collection_fee` (default `0.0001`) and `min_collection_amount`
(default `0.001`). -/
structure Collector where
  master_address : String
  collection_fee : ℚ := 1 / 10000
  min_collection_amount : ℚ := 1 / 1000
deriving DecidableEq

/-- The result dictionary built by `collect_from_address`.  Keys that are
present only in some outcomes are `Option`s; a key that the Python dict does
not contain is `none`. -/
structure CollectionResult where
  success : Bool
  txid : Option String := none
  from_address : String
  to_address : Option String := none
  amount : Option ℚ := none
  fee : Option ℚ := none
  total : Option ℚ := none
  utxo_count : Option Nat := none
  timestamp : Option ℚ := none
  error : Option String := none
deriving DecidableEq

/-- Trace events: one entry per awaited node call of a collection job. -/
inductive NodeCall
  | getUtxos (address : String)
  | createRaw
  | signRaw
  | sendTx (raw : String)
deriving DecidableEq

/-- The failure dictionary built in the `except` branch of
`collect_from_address`. -/
def fail_result (error source_address : String) : CollectionResult :=
  { success := false, error := some error, from_address := source_address }

/-- The success dictionary built at step 9 of `collect_from_address`. -/
def success_result (c : Collector) (source_address txid : String)
    (amount_to_send total_amount : ℚ) (utxo_count : Nat) (now : ℚ) :
    CollectionResult :=
  { success := true, txid := some txid, from_address := source_address,
    to_address := some c.master_address, amount := some amount_to_send,
    fee := some c.collection_fee, total := some total_amount,
    utxo_count := some utxo_count, timestamp := some now }

/-- The confirmation filter of step 2:
`[u for u in utxos if u.get('confirmations', 0) >= 1]`. -/
def confirmed_filter (utxos : List Utxo) : List Utxo :=
  utxos.filter (fun u => decide (1 ≤ u.confirmations))

/-- Step 8 of `collect_from_address`: broadcast `raw_tx` and build the
success dictionary. -/
def send_step (c : Collector) (node : Node) (now : ℚ) (source_address : String)
    (confirmed_utxos : List Utxo) (total_amount amount_to_send : ℚ)
    (raw_tx : String) : Except String (Option CollectionResult) × List NodeCall :=
  match node.send_transaction raw_tx with
  | .error e => (.error e, [.sendTx raw_tx])
  | .ok txid =>
      (.ok (some (success_result c source_address txid amount_to_send
        total_amount confirmed_utxos.length now)), [.sendTx raw_tx])

/-- The `try` block of `collect_from_address` (steps 1-9): `.ok none` is an
early `return None`, `.ok (some r)` is `return r`, `.error e` is an escaping
exception (to be converted by the `except` branch of the caller). -/
def collect_try (c : Collector) (node : Node) (now : ℚ)
    (source_address : String) (private_key : Option String) :
    Except String (Option CollectionResult) × List NodeCall :=
  match node.get_address_utxos source_address with
  | .error e => (.error e, [.getUtxos source_address])
  | .ok utxos =>
    if utxos.isEmpty then (.ok none, [.getUtxos source_address])
    else
      let confirmed_utxos := confirmed_filter utxos
      if confirmed_utxos.isEmpty then (.ok none, [.getUtxos source_address])
      else
        let total_amount := (confirmed_utxos.map Utxo.amount).sum
        if total_amount < c.min_collection_amount then
          (.ok none, [.getUtxos source_address])
        else
          let amount_to_send := total_amount - c.collection_fee
          if amount_to_send ≤ 0 then (.ok none, [.getUtxos source_address])
          else
            let inputs := confirmed_utxos.map (fun u => (u.txid, u.vout))
            match node.create_raw_transaction inputs c.master_address amount_to_send with
            | .error e => (.error e, [.getUtxos source_address, .createRaw])
            | .ok raw_tx =>
              match private_key with
              | some pk =>
                match node.sign_raw_transaction raw_tx [pk] with
                | .error e => (.error e, [.getUtxos source_address, .createRaw, .signRaw])
                | .ok signed_tx =>
                  if signed_tx.complete = false then
                    (.ok none, [.getUtxos source_address, .createRaw, .signRaw])
                  else
                    let st := send_step c node now source_address confirmed_utxos
                      total_amount amount_to_send signed_tx.hex
                    (st.1, [.getUtxos source_address, .createRaw, .signRaw] ++ st.2)
              | none =>
                let st := send_step c node now source_address confirmed_utxos
                  total_amount amount_to_send raw_tx
                (st.1, [.getUtxos source_address, .createRaw] ++ st.2)

/-- `FundsCollector.collect_from_address`.  The second component is the
`is_processing` flag after the call; if the guard rejects the call the flag is
left untouched, otherwise the `finally` clause resets it to `false` on every
path.  The third component is the trace of node calls made by this call. -/
def collect_from_address (c : Collector) (node : Node) (now : ℚ)
    (is_processing : Bool) (source_address : String)
    (private_key : Option String) :
    Option CollectionResult × Bool × List NodeCall :=
  if is_processing then (none, is_processing, [])
  else
    match collect_try c node now source_address private_key with
    | (.ok r, tr) => (r, false, tr)
    | (.error e, tr) => (some (fail_result e source_address), false, tr)

/-- The accumulator dictionary of `collect_multiple`. -/
structure BatchResult where
  total : Nat
  successful : Nat
  failed : Nat
  collections : List CollectionResult
  total_collected : ℚ
  total_fees : ℚ
deriving DecidableEq

/-- One iteration of the `for address in addresses` loop of
`collect_multiple`.  The per-iteration `except` branch of the Python loop is
unreachable in the embedding because `collect_from_address` is total (the
Python function catches every `Exception` internally). -/
def collect_step (c : Collector) (node : Node) (now : ℚ)
    (acc : BatchResult × Bool) (address : String) (private_key : Option String) :
    BatchResult × Bool :=
  let r := collect_from_address c node now acc.2 address private_key
  match r.1 with
  | some res =>
    if res.success then
      ({ acc.1 with
          successful := acc.1.successful + 1
          total_collected := acc.1.total_collected + (res.amount.getD 0)
          total_fees := acc.1.total_fees + (res.fee.getD 0)
          collections := acc.1.collections ++ [res] }, r.2.1)
    else
      ({ acc.1 with
          failed := acc.1.failed + 1
          collections := acc.1.collections ++ [res] }, r.2.1)
  | none => ({ acc.1 with failed := acc.1.failed + 1 }, r.2.1)

/-- `FundsCollector.collect_multiple`: sequential per-address collection.
`private_keys` models `private_keys.get(address)`; the second component
threads the `is_processing` flag through the loop. -/
def collect_multiple (c : Collector) (node : Node) (now : ℚ)
    (is_processing : Bool) (addresses : List String)
    (private_keys : String → Option String) : BatchResult × Bool :=
  let init : BatchResult :=
    { total := addresses.length, successful := 0, failed := 0,
      collections := [], total_collected := 0, total_fees := 0 }
  addresses.foldl
    (fun acc address => collect_step c node now acc address (private_keys address))
    (init, is_processing)

/-!  The transaction monitor (`monitor.py`).  The WebSocket handle is folded
into the `connected` flag: in the Python class `connected = True` exactly when
a live `websocket` object is held. -/

/-- A subscription-protocol message as built by `_send_subscription` /
`_send_unsubscription` (`id`, `method`, and the address list of `params`). -/
structure WsMsg where
  id : String
  method : String
  addresses : List String
deriving DecidableEq

/-- The message of `_send_subscription` for one address. -/
def sub_msg (address : String) : WsMsg :=
  { id := "sub_" ++ address, method := "subscribeAddresses",
    addresses := [address] }

/-- The message of `_send_unsubscription` for one address. -/
def unsub_msg (address : String) : WsMsg :=
  { id := "unsub_" ++ address, method := "unsubscribeAddresses",
    addresses := [address] }

/-- Mutable state of a `TransactionMonitor`.  The tracked set
`subscribed_addresses` (a Python `set`) is embedded as a duplicate-free list. -/
structure MonitorState where
  connected : Bool
  subscribed_addresses : List String
  running : Bool
  reconnect_attempts : Nat
deriving DecidableEq

/-- State after `TransactionMonitor.__init__`. -/
def initial_monitor_state : MonitorState :=
  { connected := false, subscribed_addresses := [], running := false,
    reconnect_attempts := 0 }

/-- `self._reconnect_delay = 5`. -/
def reconnect_delay : Nat := 5

/-- `self._max_reconnect_attempts = 10`. -/
def max_reconnect_attempts : Nat := 10

/-- Python `set.add`: insert the address unless already present. -/
def set_add (l : List String) (a : String) : List String :=
  if a ∈ l then l else a :: l

/-- `subscribe_address`: add to the tracked set; when connected also send one
subscribe message. -/
def subscribe_address (s : MonitorState) (address : String) :
    MonitorState × List WsMsg :=
  ({ s with subscribed_addresses := set_add s.subscribed_addresses address },
   if s.connected then [sub_msg address] else [])

/-- `unsubscribe_address`: remove from the tracked set if present; when
connected also send one unsubscribe message (the send is outside the
membership test in the source). -/
def unsubscribe_address (s : MonitorState) (address : String) :
    MonitorState × List WsMsg :=
  ({ s with subscribed_addresses :=
      if address ∈ s.subscribed_addresses then
        s.subscribed_addresses.erase address
      else s.subscribed_addresses },
   if s.connected then [unsub_msg address] else [])

/-- `start()`: no-op when already running, otherwise set `_running` and spawn
the loop. -/
def monitor_start (s : MonitorState) : MonitorState :=
  if s.running then s else { s with running := true }

/-- `stop()`: clear `_running` and disconnect. -/
def monitor_stop (s : MonitorState) : MonitorState :=
  { s with running := false, connected := false }

/-- A successful `_connect`: mark connected, reset the attempt counter, and
replay one subscribe message per tracked address. -/
def connect_success (s : MonitorState) : MonitorState × List WsMsg :=
  ({ s with connected := true, reconnect_attempts := 0 },
   s.subscribed_addresses.map sub_msg)

/-- A failed `_connect`: `connected` is cleared and the exception re-raised
(to be handled by `_handle_error`). -/
def connect_failure (s : MonitorState) : MonitorState :=
  { s with connected := false }

/-- `_handle_error`: disconnect, then either schedule a backoff delay of
`min(self._reconnect_delay * 2 ** attempts, 300)` seconds after incrementing
the attempt counter, or — when the maximum is exhausted — clear `_running`.
The second component is the scheduled delay (`none` when giving up). -/
def handle_error (s : MonitorState) : MonitorState × Option Nat :=
  let s2 := { s with connected := false }
  if s2.reconnect_attempts < max_reconnect_attempts then
    let n := s2.reconnect_attempts + 1
    ({ s2 with reconnect_attempts := n },
     some (min (reconnect_delay * 2 ^ n) 300))
  else
    ({ s2 with running := false }, none)

/-- `is_running()`. -/
def is_running (s : MonitorState) : Bool := s.running

/-- `get_subscribed_addresses()`. -/
def get_subscribed_addresses (s : MonitorState) : List String :=
  s.subscribed_addresses

/-- Every state-changing operation of the monitor, for temporal statements. -/
inductive MonitorOp
  | start
  | stop
  | subscribe (address : String)
  | unsubscribe (address : String)
  | connectSuccess
  | connectFailure
  | handleError
deriving DecidableEq

/-- The state transition of one monitor operation. -/
def monitor_step (s : MonitorState) : MonitorOp → MonitorState
  | .start => monitor_start s
  | .stop => monitor_stop s
  | .subscribe a => (subscribe_address s a).1
  | .unsubscribe a => (unsubscribe_address s a).1
  | .connectSuccess => (connect_success s).1
  | .connectFailure => connect_failure s
  | .handleError => (handle_error s).1

/-- Run a sequence of monitor operations. -/
def monitor_run (s : MonitorState) (ops : List MonitorOp) : MonitorState :=
  ops.foldl monitor_step s

/-- A subscribe or unsubscribe call, for set-algebra statements. -/
inductive SubOp
  | sub (address : String)
  | unsub (address : String)
deriving DecidableEq

/-- The address a `SubOp` concerns. -/
def SubOp.addr : SubOp → String
  | .sub a => a
  | .unsub a => a

/-- The effect of one subscribe/unsubscribe call on the tracked set alone. -/
def sub_op_step (l : List String) : SubOp → List String
  | .sub a => set_add l a
  | .unsub a => if a ∈ l then l.erase a else l

/-- The tracked set after a sequence of subscribe/unsubscribe calls. -/
def apply_sub_ops (l : List String) (ops : List SubOp) : List String :=
  ops.foldl sub_op_step l

/-- Run a sequence of subscribe/unsubscribe calls on the monitor state. -/
def monitor_sub_run (s : MonitorState) (ops : List SubOp) : MonitorState :=
  ops.foldl
    (fun s op => match op with
      | .sub a => (subscribe_address s a).1
      | .unsub a => (unsubscribe_address s a).1) s

/-- Modelled from the spec: "the set implied by those calls" — the last
subscribe/unsubscribe mentioning an address decides its membership; an address
never mentioned keeps its initial membership. -/
def implied_member (l0 : List String) (ops : List SubOp) (a : String) : Bool :=
  match ops.reverse.find? (fun op => op.addr == a) with
  | some (.sub _) => true
  | some (.unsub _) => false
  | none => decide (a ∈ l0)

/-- Modelled from the spec: the backoff formula
`min(baseDelay * 2^n, capDelay)` with `baseDelay = 5`, `capDelay = 300`. -/
def spec_backoff_delay (n : Nat) : Nat := min (5 * 2 ^ n) 300

/-!  Concrete fixtures used in counterexamples and witnesses. -/

/-- A collector with the constructor's default fee (`0.0001`) and minimum
(`0.001`). -/
def default_collector : Collector := { master_address := "master" }

/-- A confirmed output of `0.0005` coins: above the fee, below the minimum. -/
def utxo_small : Utxo :=
  { txid := "t1", vout := 0, amount := 1 / 2000, confirmations := 1 }

/-- A node whose only output for any address is `utxo_small`; every other
call succeeds. -/
def node_small : Node :=
  { get_address_utxos := fun _ => .ok [utxo_small],
    create_raw_transaction := fun _ _ _ => .ok "rawtx1",
    sign_raw_transaction := fun _ _ => .ok { complete := true, hex := "hex1" },
    send_transaction := fun _ => .ok "txid1" }

/-- A confirmed output of `0.01` coins: collectable under the defaults. -/
def utxo_good : Utxo :=
  { txid := "t2", vout := 1, amount := 1 / 100, confirmations := 2 }

/-- A fully healthy node holding `utxo_good` on every address. -/
def node_good : Node :=
  { get_address_utxos := fun _ => .ok [utxo_good],
    create_raw_transaction := fun _ _ _ => .ok "rawtx2",
    sign_raw_transaction := fun _ _ => .ok { complete := true, hex := "hex2" },
    send_transaction := fun _ => .ok "txid2" }

/-- A node whose signer always reports `complete = false`. -/
def node_incomplete_sign : Node :=
  { get_address_utxos := fun _ => .ok [utxo_good],
    create_raw_transaction := fun _ _ _ => .ok "rawtx3",
    sign_raw_transaction := fun _ _ => .ok { complete := false, hex := "" },
    send_transaction := fun _ => .ok "never" }

/-- A node that raises an RPC error for address `A` and is healthy for every
other address. -/
def node_batch : Node :=
  { get_address_utxos := fun address =>
      if address = "A" then .error "RPC error" else .ok [utxo_good],
    create_raw_transaction := fun _ _ _ => .ok "rawtx4",
    sign_raw_transaction := fun _ _ => .ok { complete := true, hex := "hex4" },
    send_transaction := fun _ => .ok "txid4" }

/-- A node with no unspent outputs anywhere. -/
def node_empty : Node :=
  { get_address_utxos := fun _ => .ok [],
    create_raw_transaction := fun _ _ _ => .ok "rawtx5",
    sign_raw_transaction := fun _ _ => .ok { complete := true, hex := "hex5" },
    send_transaction := fun _ => .ok "txid5" }

/-- An unconfirmed output of `0.01` coins. -/
def utxo_unconfirmed : Utxo :=
  { txid := "t6", vout := 0, amount := 1 / 100, confirmations := 0 }

/-- A node whose only output for any address is unconfirmed. -/
def node_unconfirmed : Node :=
  { get_address_utxos := fun _ => .ok [utxo_unconfirmed],
    create_raw_transaction := fun _ _ _ => .ok "rawtx6",
    sign_raw_transaction := fun _ _ => .ok { complete := true, hex := "hex6" },
    send_transaction := fun _ => .ok "txid6" }

/-- A running monitor that has exhausted all ten reconnect attempts. -/
def stuck_state : MonitorState :=
  { connected := false, subscribed_addresses := [], running := true,
    reconnect_attempts := 10 }

/-!  Helper lemmas about a single collection job. -/

/-- Any of the three "nothing to collect" conditions makes the `try` block
return `None` right after the UTXO fetch. -/
theorem collect_try_null (c : Collector) (node : Node) (now : ℚ)
    (source_address : String) (private_key : Option String) (utxos : List Utxo)
    (hget : node.get_address_utxos source_address = .ok utxos)
    (hnull : (confirmed_filter utxos).isEmpty = true
      ∨ ((confirmed_filter utxos).map Utxo.amount).sum < c.min_collection_amount
      ∨ ((confirmed_filter utxos).map Utxo.amount).sum - c.collection_fee ≤ 0) :
    collect_try c node now source_address private_key
      = (.ok none, [.getUtxos source_address]) := by
  unfold collect_try
  rw [hget]
  by_cases h0 : utxos.isEmpty
  · simp [h0]
  · have h0' : utxos ≠ [] := by
      simpa [List.isEmpty_iff] using h0
    rcases hnull with h | h | h
    · simp [h0, h]
    · by_cases h1 : (confirmed_filter utxos).isEmpty
      · simp [h0, h1]
      · simp [h0, h1, h]
    · by_cases h1 : (confirmed_filter utxos).isEmpty
      · simp [h0, h1]
      · by_cases h2 : ((confirmed_filter utxos).map Utxo.amount).sum
            < c.min_collection_amount
        · simp [h0, h1, h2]
        · simp [h0, h1, h2, h]

/-- C3: when the confirmed-UTXO set is empty, or the confirmed total is below
the configured minimum, or the total minus the flat fee is non-positive,
`collect_from_address` returns `None` (not a failure result), releases the
guard, and the only node call made is the UTXO fetch — no transaction is
built, signed or broadcast. -/
theorem claim_C3 (c : Collector) (node : Node) (now : ℚ)
    (source_address : String) (private_key : Option String) (utxos : List Utxo)
    (hget : node.get_address_utxos source_address = .ok utxos)
    (hnull : (confirmed_filter utxos).isEmpty = true
      ∨ ((confirmed_filter utxos).map Utxo.amount).sum < c.min_collection_amount
      ∨ ((confirmed_filter utxos).map Utxo.amount).sum - c.collection_fee ≤ 0) :
    collect_from_address c node now false source_address private_key
      = (none, false, [NodeCall.getUtxos source_address]) := by
  unfold collect_from_address
  rw [collect_try_null c node now source_address private_key utxos hget hnull]
  rfl

/-- C3 witness: a node with a single unconfirmed output, evaluated
concretely. -/
theorem claim_C3_witness :
    collect_from_address default_collector node_unconfirmed 0 false "A" none
      = (none, false, [NodeCall.getUtxos "A"]) := by
  exact claim_C3 default_collector node_unconfirmed 0 "A" none
    [utxo_unconfirmed] rfl
    (Or.inl (by simp [confirmed_filter, utxo_unconfirmed]))

/-- C5: the in-flight guard.  A call made while a job is in flight returns
`None` with an empty node-call trace and leaves the flag as it was; a call
that acquires the guard resets the flag to `false` on every exit path. -/
theorem claim_C5 (c : Collector) (node : Node) (now : ℚ)
    (source_address : String) (private_key : Option String) :
    collect_from_address c node now true source_address private_key
      = (none, true, []) ∧
    (collect_from_address c node now false source_address private_key).2.1
      = false := by
  constructor
  · rfl
  · unfold collect_from_address
    rcases h : collect_try c node now source_address private_key with ⟨r, tr⟩
    cases r <;> simp

/-- Every `return`ed result dictionary of the `try` block is the step-9
success dictionary: it carries `success = true` and the txid handed back by
the broadcast call. -/
theorem collect_try_ok_some (c : Collector) (node : Node) (now : ℚ)
    (source_address : String) (private_key : Option String)
    (r : CollectionResult) (tr : List NodeCall)
    (h : collect_try c node now source_address private_key = (.ok (some r), tr)) :
    ∃ raw txid, node.send_transaction raw = .ok txid ∧
      r.success = true ∧ r.txid = some txid := by
  rcases hg : node.get_address_utxos source_address with e | utxos
  · simp [collect_try, hg] at h
  by_cases h0 : utxos.isEmpty
  · simp [collect_try, hg, h0] at h
  by_cases h1 : (confirmed_filter utxos).isEmpty
  · simp [collect_try, hg, h0, h1] at h
  by_cases h2 : ((confirmed_filter utxos).map Utxo.amount).sum
      < c.min_collection_amount
  · simp [collect_try, hg, h0, h1, h2] at h
  by_cases h3 : ((confirmed_filter utxos).map Utxo.amount).sum
      - c.collection_fee ≤ 0
  · simp [collect_try, hg, h0, h1, h2, h3] at h
  rcases hc : node.create_raw_transaction
      ((confirmed_filter utxos).map (fun u => (u.txid, u.vout)))
      c.master_address
      (((confirmed_filter utxos).map Utxo.amount).sum - c.collection_fee)
      with e | raw_tx
  · simp [collect_try, hg, h0, h1, h2, h3, hc] at h
  rcases private_key with _ | pk
  · rcases hs : node.send_transaction raw_tx with e | txid
    · simp [collect_try, send_step, hg, h0, h1, h2, h3, hc, hs] at h
    · simp [collect_try, send_step, hg, h0, h1, h2, h3, hc, hs] at h
      exact ⟨raw_tx, txid, hs, by rw [← h.1]; rfl, by rw [← h.1]; rfl⟩
  · rcases hsig : node.sign_raw_transaction raw_tx [pk] with e | signed_tx
    · simp [collect_try, hg, h0, h1, h2, h3, hc, hsig] at h
    by_cases h4 : signed_tx.complete = false
    · simp [collect_try, hg, h0, h1, h2, h3, hc, hsig, h4] at h
    rcases hs : node.send_transaction signed_tx.hex with e | txid
    · simp [collect_try, send_step, hg, h0, h1, h2, h3, hc, hsig, h4, hs] at h
    · simp [collect_try, send_step, hg, h0, h1, h2, h3, hc, hsig, h4, hs] at h
      exact ⟨signed_tx.hex, txid, hs, by rw [← h.1]; rfl, by rw [← h.1]; rfl⟩

/-- C4: an exception escaping the collection steps (modelled as `.error e`
from the `try` block) is converted into a failure dictionary carrying
`success = false`, the description and the source address — it is never
re-raised (the embedding of `collect_from_address` is total).  Moreover, under
the ambient assumption that the node never hands back an empty txid, every
returned dictionary with `success = true` carries a non-empty txid and every
dictionary with `success = false` carries no txid. -/
theorem claim_C4 (c : Collector) (node : Node) (now : ℚ)
    (source_address : String) (private_key : Option String)
    (hsend : ∀ raw txid, node.send_transaction raw = .ok txid → txid ≠ "") :
    (∀ e tr, collect_try c node now source_address private_key = (.error e, tr) →
      (collect_from_address c node now false source_address private_key).1
        = some (fail_result e source_address)) ∧
    (∀ r, (collect_from_address c node now false source_address
        private_key).1 = some r →
      (r.success = true → ∃ t, r.txid = some t ∧ t ≠ "") ∧
      (r.success = false → r.txid = none)) := by
  constructor
  · intro e tr htry
    unfold collect_from_address
    rw [htry]
    rfl
  · intro r hr
    rcases htry : collect_try c node now source_address private_key with ⟨res, tr⟩
    rcases res with e | ro
    · have hfail : (collect_from_address c node now false source_address
          private_key).1 = some (fail_result e source_address) := by
        unfold collect_from_address
        rw [htry]
        rfl
      rw [hfail] at hr
      have hre := Option.some.inj hr
      constructor
      · intro hs
        rw [← hre] at hs
        simp [fail_result] at hs
      · intro _
        rw [← hre]
        rfl
    · have hok : (collect_from_address c node now false source_address
          private_key).1 = ro := by
        unfold collect_from_address
        rw [htry]
        rfl
      rw [hok] at hr
      rw [hr] at htry
      obtain ⟨raw, txid, hs, hsucc, htx⟩ :=
        collect_try_ok_some c node now source_address private_key r tr htry
      constructor
      · intro _
        exact ⟨txid, htx, hsend raw txid hs⟩
      · intro hf
        rw [hsucc] at hf
        simp at hf

/-- C4 witness: on the healthy node the success dictionary indeed carries a
non-empty txid. -/
theorem claim_C4_witness :
    ∃ t, (success_result default_collector "B" "txid2"
      (1 / 100 - 1 / 10000) (1 / 100) 1 0).txid = some t ∧ t ≠ "" := by
  have h := claim_C4 default_collector node_good 0 "B" none
    (by intro raw txid hok; cases hok; simp [node_good])
  exact (h.2 (success_result default_collector "B" "txid2"
      (1 / 100 - 1 / 10000) (1 / 100) 1 0)
    (by norm_num [collect_from_address, collect_try, confirmed_filter,
      send_step, node_good, utxo_good, default_collector, success_result])).1 rfl

/-- C1 (amended): when a signing key is supplied and the node's signing call
reports `complete = false` on the built transaction, `collect_from_address`
terminates with `None` (not a failure dictionary), releases the guard, and
never broadcasts: no send call appears in the node-call trace. -/
theorem claim_C1_amended (c : Collector) (node : Node) (now : ℚ)
    (source_address pk : String) (utxos : List Utxo) (raw_tx : String)
    (signed_tx : SignedTx)
    (hget : node.get_address_utxos source_address = .ok utxos)
    (hconf : (confirmed_filter utxos).isEmpty = false)
    (hmin : ¬ ((confirmed_filter utxos).map Utxo.amount).sum
        < c.min_collection_amount)
    (hpos : ¬ ((confirmed_filter utxos).map Utxo.amount).sum
        - c.collection_fee ≤ 0)
    (hcreate : node.create_raw_transaction
        ((confirmed_filter utxos).map (fun u => (u.txid, u.vout)))
        c.master_address
        (((confirmed_filter utxos).map Utxo.amount).sum - c.collection_fee)
        = .ok raw_tx)
    (hsign : node.sign_raw_transaction raw_tx [pk] = .ok signed_tx)
    (hincomplete : signed_tx.complete = false) :
    collect_from_address c node now false source_address (some pk)
      = (none, false, [NodeCall.getUtxos source_address, NodeCall.createRaw,
          NodeCall.signRaw]) ∧
    ∀ raw, NodeCall.sendTx raw ∉
      (collect_from_address c node now false source_address (some pk)).2.2 := by
  have h0 : utxos.isEmpty = false := by
    cases utxos with
    | nil => simp [confirmed_filter] at hconf
    | cons a l => rfl
  have hmain : collect_from_address c node now false source_address (some pk)
      = (none, false, [NodeCall.getUtxos source_address, NodeCall.createRaw,
          NodeCall.signRaw]) := by
    simp [collect_from_address, collect_try, hget, h0, hconf, hmin, hpos,
      hcreate, hsign, hincomplete]
  refine ⟨hmain, ?_⟩
  intro raw
  rw [hmain]
  simp

/-- C1 counterexample: on a node whose signer reports `complete = false`, the
job ends in `None`, not in a structured failure dictionary as the claim
states. -/
theorem claim_C1_cex :
    node_incomplete_sign.sign_raw_transaction "rawtx3" ["key"]
      = .ok { complete := false, hex := "" } ∧
    (collect_from_address default_collector node_incomplete_sign 0 false "A"
      (some "key")).1 = none := by
  constructor
  · rfl
  · norm_num [collect_from_address, collect_try, confirmed_filter,
      node_incomplete_sign, utxo_good, default_collector]

/-- C1 witness: the amended statement evaluated on the concrete
incomplete-signer node. -/
theorem claim_C1_witness :
    collect_from_address default_collector node_incomplete_sign 0 false "W"
      (some "key")
      = (none, false, [NodeCall.getUtxos "W", NodeCall.createRaw,
          NodeCall.signRaw]) := by
  exact (claim_C1_amended default_collector node_incomplete_sign 0 "W" "key"
    [utxo_good] "rawtx3" { complete := false, hex := "" } rfl
    (by simp [confirmed_filter, utxo_good])
    (by norm_num [confirmed_filter, utxo_good, default_collector])
    (by norm_num [confirmed_filter, utxo_good, default_collector])
    rfl rfl rfl).1

/-- C2 counterexample: a single confirmed UTXO of `0.0005` coins is above the
flat fee (`0.0001`) yet below the minimum collection amount (`0.001`), so
`collect_from_address` returns `None` rather than the success dictionary the
claim demands. -/
theorem claim_C2_cex :
    default_collector.collection_fee < utxo_small.amount ∧
    1 ≤ utxo_small.confirmations ∧
    node_small.get_address_utxos "A" = .ok [utxo_small] ∧
    (collect_from_address default_collector node_small 0 false "A" none).1
      = none := by
  refine ⟨by norm_num [default_collector, utxo_small],
    le_refl 1, rfl, ?_⟩
  norm_num [collect_from_address, collect_try, confirmed_filter, node_small,
    utxo_small, default_collector]

/-- C2 (amended): when exactly one UTXO passes the confirmation filter, its
amount `X` exceeds the flat fee AND reaches the configured minimum collection
amount, and the node's build and broadcast calls succeed, the job returns a
success dictionary with `amount = X - fee` and `utxo_count = 1`. -/
theorem claim_C2_amended (c : Collector) (node : Node) (now : ℚ)
    (source_address : String) (utxos : List Utxo) (u : Utxo)
    (raw_tx txid : String)
    (hget : node.get_address_utxos source_address = .ok utxos)
    (hconf : confirmed_filter utxos = [u])
    (hfee : c.collection_fee < u.amount)
    (hmin : c.min_collection_amount ≤ u.amount)
    (hcreate : node.create_raw_transaction [(u.txid, u.vout)] c.master_address
        (u.amount - c.collection_fee) = .ok raw_tx)
    (hsend : node.send_transaction raw_tx = .ok txid) :
    (collect_from_address c node now false source_address none).1
      = some (success_result c source_address txid
          (u.amount - c.collection_fee) u.amount 1 now) := by
  have h0 : utxos.isEmpty = false := by
    cases utxos with
    | nil => simp [confirmed_filter] at hconf
    | cons a l => rfl
  have hmin' : ¬ u.amount < c.min_collection_amount := not_lt.mpr hmin
  have hpos : ¬ u.amount - c.collection_fee ≤ 0 := by
    rw [not_le]
    exact sub_pos.mpr hfee
  simp [collect_from_address, collect_try, send_step, hget, h0, hconf,
    hmin', hpos, hcreate, hsend]

/-- C2 witness: the amended statement evaluated on the healthy node. -/
theorem claim_C2_witness :
    (collect_from_address default_collector node_good 0 false "B" none).1
      = some (success_result default_collector "B" "txid2"
          (utxo_good.amount - default_collector.collection_fee)
          utxo_good.amount 1 0) := by
  exact claim_C2_amended default_collector node_good 0 "B" [utxo_good]
    utxo_good "rawtx2" "txid2" rfl
    (by simp [confirmed_filter, utxo_good])
    (by norm_num [default_collector, utxo_good])
    (by norm_num [default_collector, utxo_good])
    rfl rfl

/-- Each loop iteration of `collect_multiple` increments exactly one of the
`successful` / `failed` counters and never touches `total`. -/
theorem collect_step_counts (c : Collector) (node : Node) (now : ℚ)
    (acc : BatchResult × Bool) (address : String) (pk : Option String) :
    (collect_step c node now acc address pk).1.successful
        + (collect_step c node now acc address pk).1.failed
      = acc.1.successful + acc.1.failed + 1 ∧
    (collect_step c node now acc address pk).1.total = acc.1.total := by
  unfold collect_step
  rcases h : (collect_from_address c node now acc.2 address pk).1 with _ | r
  · simp [h]
    omega
  · by_cases hs : r.success
    · simp [h, hs]
      omega
    · simp [h, hs]
      omega

/-- Folding the batch loop over any address list adds exactly one counted
outcome per address and preserves `total`. -/
theorem collect_fold_counts (c : Collector) (node : Node) (now : ℚ)
    (private_keys : String → Option String) (addresses : List String) :
    ∀ acc : BatchResult × Bool,
      (addresses.foldl (fun a address => collect_step c node now a address
          (private_keys address)) acc).1.successful
        + (addresses.foldl (fun a address => collect_step c node now a address
          (private_keys address)) acc).1.failed
        = acc.1.successful + acc.1.failed + addresses.length ∧
      (addresses.foldl (fun a address => collect_step c node now a address
          (private_keys address)) acc).1.total = acc.1.total := by
  induction addresses with
  | nil => intro acc; simp
  | cons a l ih =>
      intro acc
      simp only [List.foldl_cons, List.length_cons]
      have h1 := collect_step_counts c node now acc a (private_keys a)
      have h2 := ih (collect_step c node now acc a (private_keys a))
      constructor
      · rw [h2.1, h1.1]
        omega
      · rw [h2.2, h1.2]

/-- C6: a batch run reports `total` equal to the number of addresses and
`successful + failed = total` for every address list (so no address is
skipped, and the embedding is total, so no exception escapes); concretely,
with address `A` failing on an RPC error and address `B` succeeding, the
batch yields `total = 2`, `successful = 1`, `failed = 1` with both per-item
dictionaries present in `collections`. -/
theorem claim_C6 :
    (∀ (c : Collector) (node : Node) (now : ℚ) (b : Bool)
        (addresses : List String) (private_keys : String → Option String),
      (collect_multiple c node now b addresses private_keys).1.total
        = addresses.length ∧
      (collect_multiple c node now b addresses private_keys).1.successful
          + (collect_multiple c node now b addresses private_keys).1.failed
        = addresses.length) ∧
    ((collect_multiple default_collector node_batch 0 false ["A", "B"]
        (fun _ => none)).1.total = 2 ∧
      (collect_multiple default_collector node_batch 0 false ["A", "B"]
        (fun _ => none)).1.successful = 1 ∧
      (collect_multiple default_collector node_batch 0 false ["A", "B"]
        (fun _ => none)).1.failed = 1 ∧
      (collect_multiple default_collector node_batch 0 false ["A", "B"]
        (fun _ => none)).1.collections
        = [fail_result "RPC error" "A",
           success_result default_collector "B" "txid4"
             (utxo_good.amount - default_collector.collection_fee)
             utxo_good.amount 1 0]) := by
  constructor
  · intro c node now b addresses private_keys
    have h := collect_fold_counts c node now private_keys addresses
      ({ total := addresses.length, successful := 0, failed := 0,
         collections := [], total_collected := 0, total_fees := 0 }, b)
    unfold collect_multiple
    constructor
    · simpa using h.2
    · rw [h.1]
      simp
  · have hBA : ("B" : String) ≠ "A" := by decide
    norm_num [collect_multiple, collect_step, collect_from_address,
      collect_try, send_step, confirmed_filter, node_batch, utxo_good,
      default_collector, fail_result, success_result, hBA]

/-- C10: whenever `collect_from_address` returns `None` inside the batch
loop, the iteration increments `failed`, leaves `successful` alone, and
appends nothing to `collections`; consequently `collections` can end up
shorter than `total`, as in the concrete all-empty batch below. -/
theorem claim_C10 :
    (∀ (c : Collector) (node : Node) (now : ℚ) (acc : BatchResult × Bool)
        (address : String) (pk : Option String),
      (collect_from_address c node now acc.2 address pk).1 = none →
      (collect_step c node now acc address pk).1.failed = acc.1.failed + 1 ∧
      (collect_step c node now acc address pk).1.collections
        = acc.1.collections ∧
      (collect_step c node now acc address pk).1.successful
        = acc.1.successful) ∧
    ((collect_multiple default_collector node_empty 0 false ["A", "B"]
        (fun _ => none)).1.collections.length = 0 ∧
      (collect_multiple default_collector node_empty 0 false ["A", "B"]
        (fun _ => none)).1.total = 2 ∧
      (collect_multiple default_collector node_empty 0 false ["A", "B"]
        (fun _ => none)).1.failed = 2) := by
  constructor
  · intro c node now acc address pk h
    simp [collect_step, h]
  · simp [collect_multiple, collect_step, collect_from_address, collect_try,
      node_empty]

/-- C10 witness: one concrete `None` iteration in the batch loop. -/
theorem claim_C10_witness :
    (collect_step default_collector node_empty 0
      ({ total := 2, successful := 0, failed := 0, collections := [],
         total_collected := 0, total_fees := 0 }, false) "A" none).1.failed
      = 0 + 1 ∧
    (collect_step default_collector node_empty 0
      ({ total := 2, successful := 0, failed := 0, collections := [],
         total_collected := 0, total_fees := 0 }, false) "A" none).1.collections
      = [] := by
  have h := (claim_C10).1 default_collector node_empty 0
    ({ total := 2, successful := 0, failed := 0, collections := [],
       total_collected := 0, total_fees := 0 }, false) "A" none
    (by simp [collect_from_address, collect_try, node_empty])
  exact ⟨h.1, h.2.1⟩

/-!  Helper lemmas about the monitor. -/

/-- Membership after a Python-style `set.add`. -/
theorem mem_set_add (l : List String) (a b : String) :
    a ∈ set_add l b ↔ a = b ∨ a ∈ l := by
  unfold set_add
  by_cases hb : b ∈ l
  · simp only [if_pos hb]
    constructor
    · exact Or.inr
    · rintro (rfl | ha)
      · exact hb
      · exact ha
  · simp [if_neg hb, List.mem_cons]

/-- `set.add` keeps the tracked list duplicate-free. -/
theorem nodup_set_add (l : List String) (a : String) (h : l.Nodup) :
    (set_add l a).Nodup := by
  unfold set_add
  by_cases ha : a ∈ l
  · simpa [if_pos ha] using h
  · simp [if_neg ha, List.nodup_cons, ha, h]

/-- One subscribe/unsubscribe call keeps the tracked list duplicate-free. -/
theorem nodup_sub_op_step (l : List String) (op : SubOp) (h : l.Nodup) :
    (sub_op_step l op).Nodup := by
  cases op with
  | sub a => exact nodup_set_add l a h
  | unsub a =>
      unfold sub_op_step
      by_cases ha : a ∈ l
      · simpa [if_pos ha] using h.erase a
      · simpa [if_neg ha] using h

/-- Shifting one call from the sequence into the initial set preserves the
spec-implied membership. -/
theorem implied_member_cons (l : List String) (op : SubOp) (ops : List SubOp)
    (a : String) (h : l.Nodup) :
    implied_member l (op :: ops) a = implied_member (sub_op_step l op) ops a := by
  unfold implied_member
  rw [List.reverse_cons, List.find?_append]
  rcases hf : ops.reverse.find? (fun o => o.addr == a) with _ | o
  · rw [hf]
    cases op with
    | sub b =>
        by_cases hb : b = a
        · subst hb
          simp [SubOp.addr, sub_op_step, mem_set_add]
        · simp [SubOp.addr, hb, sub_op_step, mem_set_add, Ne.symm hb]
    | unsub b =>
        by_cases hb : b = a
        · subst hb
          simp only [SubOp.addr, sub_op_step]
          by_cases hbl : b ∈ l
          · simp [hbl, h.not_mem_erase]
          · simp [hbl]
        · simp only [SubOp.addr, sub_op_step]
          by_cases hbl : b ∈ l
          · simp [hb, hbl, h.mem_erase_iff, Ne.symm hb]
          · simp [hb, hbl]
  · rw [hf]
    rcases o with b | b <;> simp

/-- The tracked set after any call sequence, as a membership bit, equals the
spec-implied set. -/
theorem apply_sub_ops_mem (ops : List SubOp) :
    ∀ (l : List String) (a : String), l.Nodup →
      decide (a ∈ apply_sub_ops l ops) = implied_member l ops a := by
  induction ops with
  | nil =>
      intro l a _
      simp [apply_sub_ops, implied_member]
  | cons op rest ih =>
      intro l a h
      rw [implied_member_cons l op rest a h]
      exact ih (sub_op_step l op) a (nodup_sub_op_step l op h)

/-- The tracked set stays duplicate-free under any call sequence. -/
theorem apply_sub_ops_nodup (ops : List SubOp) :
    ∀ l : List String, l.Nodup → (apply_sub_ops l ops).Nodup := by
  induction ops with
  | nil => intro l h; exact h
  | cons op rest ih => intro l h; exact ih _ (nodup_sub_op_step l op h)

/-- The monitor-level subscribe/unsubscribe calls act on the tracked set
exactly as the set-level operations. -/
theorem monitor_sub_run_subscribed (ops : List SubOp) :
    ∀ s : MonitorState, (monitor_sub_run s ops).subscribed_addresses
      = apply_sub_ops s.subscribed_addresses ops := by
  induction ops with
  | nil => intro s; rfl
  | cons op rest ih =>
      intro s
      cases op with
      | sub a => exact ih (subscribe_address s a).1
      | unsub a => exact ih (unsubscribe_address s a).1

/-- `sub_msg` is injective (its `addresses` field determines the address). -/
theorem sub_msg_injective : Function.Injective sub_msg := by
  intro x y hxy
  have h := congrArg WsMsg.addresses hxy
  simpa [sub_msg] using h

/-- Replay on a successful connection sends exactly one subscribe message per
tracked address (and none for an untracked one). -/
theorem connect_success_count (s : MonitorState) (a : String)
    (h : s.subscribed_addresses.Nodup) :
    List.count (sub_msg a) (connect_success s).2
      = if a ∈ s.subscribed_addresses then 1 else 0 := by
  unfold connect_success
  rw [List.count_map_of_injective _ _ sub_msg_injective]
  exact List.count_eq_of_nodup h

/-- Every monitor operation other than `start` leaves a stopped monitor
stopped. -/
theorem monitor_step_keeps_stopped (s : MonitorState) (op : MonitorOp)
    (hop : op ≠ MonitorOp.start) (h : s.running = false) :
    (monitor_step s op).running = false := by
  cases op with
  | start => exact absurd rfl hop
  | stop => rfl
  | subscribe a => simpa [monitor_step, subscribe_address] using h
  | unsubscribe a => simpa [monitor_step, unsubscribe_address] using h
  | connectSuccess => simpa [monitor_step, connect_success] using h
  | connectFailure => simpa [monitor_step, connect_failure] using h
  | handleError =>
      simp only [monitor_step, handle_error]
      split
      · simpa using h
      · rfl

/-- C7: on every non-final reconnect attempt `n = attempts + 1`, the
scheduled backoff delay equals the spec formula `min(5 * 2^n, 300)`; that
formula is monotone in `n` and capped at 300, with attempt 1 delaying 10
seconds and attempt 6 delaying 300 seconds; and a successful connection
resets the attempt counter to 0. -/
theorem claim_C7 :
    (∀ s : MonitorState, s.reconnect_attempts < max_reconnect_attempts →
      (handle_error s).2 = some (spec_backoff_delay (s.reconnect_attempts + 1))) ∧
    (∀ m n : Nat, m ≤ n → spec_backoff_delay m ≤ spec_backoff_delay n) ∧
    (∀ n : Nat, spec_backoff_delay n ≤ 300) ∧
    spec_backoff_delay 1 = 10 ∧
    spec_backoff_delay 6 = 300 ∧
    (∀ s : MonitorState, (connect_success s).1.reconnect_attempts = 0) := by
  refine ⟨?_, ?_, ?_, by decide, by decide, fun s => rfl⟩
  · intro s hlt
    simp [handle_error, spec_backoff_delay, reconnect_delay, hlt]
  · intro m n hmn
    exact min_le_min
      (Nat.mul_le_mul_left 5 (Nat.pow_le_pow_right (by norm_num) hmn))
      (le_refl 300)
  · intro n
    exact min_le_right _ _

/-- C7 witness: the first attempt from the freshly initialised monitor is
scheduled with the formula delay, and the formula is monotone at `2 ≤ 5`. -/
theorem claim_C7_witness :
    (handle_error initial_monitor_state).2 = some (spec_backoff_delay 1) ∧
    spec_backoff_delay 2 ≤ spec_backoff_delay 5 := by
  constructor
  · exact (claim_C7).1 initial_monitor_state (by decide)
  · exact (claim_C7).2.1 2 5 (by decide)

/-- C8: once the attempt counter has exhausted the maximum of 10, a further
error clears `_running` (no further delay is scheduled), `is_running`
reports `false`, and no sequence of operations avoiding `start` ever makes
the monitor run again, while `start` on a stopped monitor does. -/
theorem claim_C8 :
    (∀ s : MonitorState, ¬ s.reconnect_attempts < max_reconnect_attempts →
      (handle_error s).1.running = false ∧
      is_running (handle_error s).1 = false ∧
      (handle_error s).2 = none) ∧
    (∀ (s : MonitorState) (ops : List MonitorOp), is_running s = false →
      (∀ op ∈ ops, op ≠ MonitorOp.start) →
      is_running (monitor_run s ops) = false) ∧
    (∀ s : MonitorState, s.running = false →
      is_running (monitor_step s MonitorOp.start) = true) := by
  refine ⟨?_, ?_, ?_⟩
  · intro s hge
    refine ⟨?_, ?_, ?_⟩ <;> simp [handle_error, is_running, hge]
  · intro s ops
    induction ops generalizing s with
    | nil =>
        intro h _
        exact h
    | cons op rest ih =>
        intro h hops
        exact ih (monitor_step s op)
          (monitor_step_keeps_stopped s op (hops op (by simp)) h)
          (fun o ho => hops o (by simp [ho]))
  · intro s h
    simp [monitor_step, monitor_start, is_running, h]

/-- C8 witness: the stuck monitor stops for good and stays stopped through
a further error and a stop call. -/
theorem claim_C8_witness :
    is_running (handle_error stuck_state).1 = false ∧
    is_running (monitor_run (handle_error stuck_state).1
      [MonitorOp.connectFailure, MonitorOp.handleError]) = false := by
  have h1 := (claim_C8).1 stuck_state (by decide)
  refine ⟨h1.2.1, ?_⟩
  exact (claim_C8).2.1 (handle_error stuck_state).1
    [MonitorOp.connectFailure, MonitorOp.handleError] h1.2.1 (by decide)

/-- C9: for every subscribe/unsubscribe sequence the tracked set stays
duplicate-free and its membership equals the spec-implied set (last call per
address wins, so a later unsubscribe cancels an earlier subscribe and adding
twice is the same as adding once); and replay on a successful (re)connection
sends exactly one subscribe message per tracked address. -/
theorem claim_C9 :
    (∀ (s : MonitorState) (ops : List SubOp),
      (monitor_sub_run s ops).subscribed_addresses
        = apply_sub_ops s.subscribed_addresses ops) ∧
    (∀ (l : List String) (ops : List SubOp) (a : String), l.Nodup →
      (apply_sub_ops l ops).Nodup ∧
      (a ∈ apply_sub_ops l ops ↔ implied_member l ops a = true)) ∧
    (∀ (s : MonitorState) (a : String), s.subscribed_addresses.Nodup →
      List.count (sub_msg a) (connect_success s).2
        = if a ∈ s.subscribed_addresses then 1 else 0) := by
  refine ⟨?_, ?_, ?_⟩
  · intro s ops
    exact monitor_sub_run_subscribed ops s
  · intro l ops a h
    refine ⟨apply_sub_ops_nodup ops l h, ?_⟩
    rw [← apply_sub_ops_mem ops l a h]
    exact decide_eq_true_iff.symm
  · intro s a h
    exact connect_success_count s a h

/-- C9 witness: one concrete sequence — subscribe `y`, subscribe `y` again,
unsubscribe `x` — starting from a tracked set holding only `x`. -/
theorem claim_C9_witness :
    (apply_sub_ops ["x"] [SubOp.sub "y", SubOp.sub "y",
        SubOp.unsub "x"]).Nodup ∧
    ("y" ∈ apply_sub_ops ["x"] [SubOp.sub "y", SubOp.sub "y", SubOp.unsub "x"]
      ↔ implied_member ["x"] [SubOp.sub "y", SubOp.sub "y", SubOp.unsub "x"]
          "y" = true) := by
  exact (claim_C9).2.1 ["x"] [SubOp.sub "y", SubOp.sub "y", SubOp.unsub "x"]
    "y" (by decide)

end NodeManager
